import Mathlib

/-!
Verification of the stress-ng process orchestrator and synchronization
protocol (src/stress-ng.c, src/stress-wait.c, src/stress-null.c) against
its natural-language specification.

The C sources are shallowly embedded: machine integers become `Nat`/`Int`
(all quantities involved stay far from overflow and are guarded to small
ranges by `check_value`/`check_range`), wall-clock instants become exact
integer microsecond counts, and each loop becomes a
structural recursion over the finite trace of observations the loop makes
(one observation per iteration: syscall return values, shared-counter
reads, flag reads).
-/

namespace StressNg

/-- `STRESS_MAX` from stress-ng.c:92 — number of stressor categories
(iosync = 0, cpu = 1, vm = 2, hdd = 3). -/
def STRESS_MAX : Nat := 4

/-- `EXIT_SUCCESS`. -/
def EXIT_SUCCESS : Nat := 0

/-- `EXIT_FAILURE`. -/
def EXIT_FAILURE : Nat := 1

/-! ## Operation-budget division (stress-ng.c:85, used at lines 609-612)

`#define DIV_OPS_BY_PROCS(opt, nproc) opt = (nproc == 0) ? 0 : opt / nproc;`

`opt` is a `uint64_t` total budget and `nproc` an `int32_t` worker count
already validated by `check_value` to lie in [0, 1024], so `Nat` division
models the C unsigned division exactly. -/
def DIV_OPS_BY_PROCS (opt nproc : Nat) : Nat :=
  if nproc = 0 then 0 else opt / nproc

/-! ## Spawn schedule (stress-ng.c:669-695)

The launch phase is a double loop: the outer loop runs `n_procs` from `0`
to `total_procs - 1` (one "round" per iteration); the inner loop visits
the categories `i = 0..STRESS_MAX-1` and forks one worker for every
category whose started count `started_procs[i]` is still below
`num_procs[i]`.  At the start of round `r` every category has
`started_procs[i] = min (num_procs[i]) r`, so category `i` spawns in
round `r` exactly when `r < num_procs[i]`, and the spawned worker's
within-category index `j` equals `r`.  The child sleeps
`opt_backoff * n_procs` microseconds (line 682) where `n_procs` is the
round index `r`.

`num_procs` is embedded as a list of `STRESS_MAX` naturals. -/

/-- `total_procs` (stress-ng.c:627): sum of the per-category counts. -/
def totalProcs (np : List Nat) : Nat := np.sum

/-- `max` (stress-ng.c:619-621): largest per-category worker count. -/
def maxProcs (np : List Nat) : Nat := np.foldr max 0

/-- Categories that fork a worker in round `r`: those with `r < num_procs[i]`,
visited in category order by the inner loop (stress-ng.c:670-672). -/
def roundSpawns (np : List Nat) (r : Nat) : List Nat :=
  (List.range STRESS_MAX).filter (fun i => r < np.getD i 0)

/-- The full spawn schedule, in fork order.  Each entry is
`(category, round)`; the worker's within-category index `j` and its
backoff multiplier `n_procs` both equal the round. -/
def spawnSchedule (np : List Nat) : List (Nat × Nat) :=
  (List.range (totalProcs np)).flatMap
    (fun r => (roundSpawns np r).map (fun i => (i, r)))

/-! ## Counter slots (stress-ng.c:650, 684, 720)

The shared region is created with `len = sizeof(uint64_t) * STRESS_MAX * max`
counters and worker `j` of category `i` is handed the address
`counters + (j * max) + i`. -/

/-- Number of `uint64_t` counters in the shared metrics region
(stress-ng.c:650). -/
def regionCounters (max : Nat) : Nat := STRESS_MAX * max

/-- Index of the counter slot handed to worker `j` of category `i`
(stress-ng.c:684): `(j * max) + i`. -/
def counterSlot (max i j : Nat) : Nat := j * max + i

/-! ## Launch phase with fork failures (stress-ng.c:669-695, 728-730)

`forkOk k` tells whether the `k`-th `fork()` call succeeds.  On the first
failing fork the code prints an error, calls
`send_alarm(procs, started_procs)` — which signals `SIGALRM` to every
previously recorded worker (stress-ng.c:468-479) — and jumps to `out:`,
which runs `shm_unlink` and `exit(EXIT_SUCCESS)` (stress-ng.c:728-730). -/

/-- Result of the launch phase: either every scheduled worker was spawned,
or a fork failed, in which case `spawned` lists the workers forked before
the failure, `alarmed` those signalled by `send_alarm`, and `exitCode` the
process exit code taken at `out:`. -/
inductive LaunchResult where
  | completed (spawned : List (Nat × Nat))
  | forkFailed (spawned alarmed : List (Nat × Nat)) (exitCode : Nat)
deriving DecidableEq, Repr

/-- The launch loop over the remaining schedule entries; `k` is the index
of the next `fork()` call and `acc` the already-spawned workers in reverse
order.  On fork failure: `send_alarm` over exactly the recorded workers,
then `goto out` → `exit(EXIT_SUCCESS)`; no further spawns are attempted. -/
def launchFrom (forkOk : Nat → Bool) :
    List (Nat × Nat) → Nat → List (Nat × Nat) → LaunchResult
  | [], _, acc => .completed acc.reverse
  | e :: rest, k, acc =>
    if forkOk k then launchFrom forkOk rest (k + 1) (e :: acc)
    else .forkFailed acc.reverse acc.reverse EXIT_SUCCESS

/-- The whole launch phase for configuration `np`. -/
def launch (np : List Nat) (forkOk : Nat → Bool) : LaunchResult :=
  launchFrom forkOk (spawnSchedule np) 0 []

/-! ## Staggered launch delays (stress-ng.c:680-692)

The child of round `r` runs `usleep(opt_backoff * n_procs)` with
`n_procs = r` before invoking its stressor (line 682); the parent records
`procs[i][j].start = time_now() + (opt_backoff * n_procs) / 1000000.0`
(lines 688-689).  Times are modelled in exact microseconds as naturals
(the C code stores seconds as `double`; the claims are order relations
meant at the exact-arithmetic level). -/

/-- Microseconds slept by the child before running its stressor
(stress-ng.c:682). -/
def childSleep (backoff r : Nat) : Nat := backoff * r

/-- Launch timestamp (microseconds) recorded by the parent for a worker
forked at time `forkTime` in round `r` (stress-ng.c:688-689). -/
def recordedStart (forkTime backoff r : Nat) : Nat := forkTime + backoff * r

/-! ## Reap loop (stress-ng.c:698-709)

```
while (n_procs) {
    if ((pid = wait(&status)) > 0) { proc_finished(...); n_procs--; }
    else if (pid == -1) { send_alarm(procs, started_procs); printf("Break"); }
}
```
Each loop iteration consumes one `wait()` result from a trace. -/

/-- One result of the blocking `wait()` call: a reaped child, or failure
(`wait` returned -1). -/
inductive WaitRes where
  | reaped (pid : Nat)
  | failed
deriving DecidableEq, Repr

/-- Observable events of the reap loop: `procFinished pid` records the
reap timestamp and decrements `n_procs`; `alarmAllBreak` is
`send_alarm` over every tracked worker followed by the `"Break"`
diagnostic (stress-ng.c:706-707). -/
inductive ReapEvent where
  | procFinished (pid : Nat)
  | alarmAllBreak
deriving DecidableEq, Repr

/-- The reap loop run against a finite trace of `wait()` results.
Returns the remaining outstanding count (0 exactly when the loop exited
normally into the completion path at stress-ng.c:710) and the emitted
events in order. -/
def reapLoop : Nat → List WaitRes → Nat × List ReapEvent
  | 0, _ => (0, [])
  | n + 1, [] => (n + 1, [])
  | n + 1, .reaped p :: rest =>
    let out := reapLoop n rest
    (out.1, .procFinished p :: out.2)
  | n + 1, .failed :: rest =>
    let out := reapLoop (n + 1) rest
    (out.1, .alarmAllBreak :: out.2)

/-! ## Shared-memory name lifecycle (stress-ng.c:642-665, 728-730)

The exact operation order of `main` on the shared-memory name is:
`shm_unlink` (line 643, before creation), `shm_open(..., O_CREAT)`
(line 645), `ftruncate` (line 651), `mmap` (line 657), `close(fd)`
(line 664), then at `out:` a final `shm_unlink` (line 729).  Namespace
membership of the name is tracked as a boolean folded over the ops;
`shm_unlink` of an absent name is a harmless no-op in this model. -/

/-- Operations of `main` that can affect whether the shared-memory name
exists in the name namespace. -/
inductive ShmOp where
  | unlinkName
  | openCreate
  | truncateFd
  | mmapFd
  | closeFd
deriving DecidableEq, Repr

/-- Whether the name exists in the namespace after running `ops` from an
initial existence state `init`: `shm_unlink` removes it, `shm_open` with
`O_CREAT` (re)creates it, descriptor operations leave it unchanged. -/
def shmNameExists (init : Bool) : List ShmOp → Bool
  | [] => init
  | .unlinkName :: rest => shmNameExists false rest
  | .openCreate :: rest => shmNameExists true rest
  | .truncateFd :: rest => shmNameExists init rest
  | .mmapFd :: rest => shmNameExists init rest
  | .closeFd :: rest => shmNameExists init rest

/-- The operations from the start of shared-memory setup up to and
including the `mmap` call (stress-ng.c:643-657, success path). -/
def shmOpsThroughMmap : List ShmOp :=
  [.unlinkName, .openCreate, .truncateFd, .mmapFd]

/-- The complete successful setup sequence (stress-ng.c:643-664). -/
def shmSetupOps : List ShmOp :=
  [.unlinkName, .openCreate, .truncateFd, .mmapFd, .closeFd]

/-! ## Killer watchdog of the synchronization triad (stress-wait.c:85-122)

Each iteration of the killer loop sends `SIGSTOP` then `SIGCONT` to the
runner, reads the shared counter and, when it is unchanged, compares
`time_now() - start` with `ABORT_TIMEOUT`; otherwise it resets `start`
and `last_counter`.  The loop condition re-reads `opt_do_run` and the
counter.  One iteration is modelled as one observation `(t, c, run)`.
`time_now()` is `tv_sec + tv_usec / 1e6` from `gettimeofday`
(stress-ng.c:455-461), exact in whole microseconds, so instants are
modelled as integer microsecond counts. -/

/-- `ABORT_TIMEOUT` (stress-wait.c:29): 8.0 seconds, in microseconds. -/
def ABORT_TIMEOUT : ℤ := 8000000

/-- One observation made by a killer-loop iteration: the wall-clock time
`t` (microseconds), the shared progress counter value `c` read this
iteration, and the `opt_do_run` flag at the loop condition. -/
structure KObs where
  t : ℤ
  c : Nat
  run : Bool
deriving DecidableEq, Repr

/-- How the killer loop ended: `stalledAbort` is the watchdog `break`
(stress-wait.c:106-110), `normalStop` the loop condition turning false
(stress-wait.c:115), `pending` means the observation trace ran out with
the loop still going. -/
inductive KExit where
  | stalledAbort
  | normalStop
  | pending (start : ℤ) (last : Nat)
deriving DecidableEq, Repr

/-- The killer's probing loop (stress-wait.c:94-115), with watchdog state
`start` (time of last observed counter advance) and `last` (counter value
then). -/
def killerLoop (maxOps : Nat) (start : ℤ) (last : Nat) : List KObs → KExit
  | [] => .pending start last
  | o :: rest =>
    if last = o.c then
      if o.t - start > ABORT_TIMEOUT then .stalledAbort
      else if o.run && (decide (maxOps = 0) || decide (o.c < maxOps)) then
        killerLoop maxOps start last rest
      else .normalStop
    else
      if o.run && (decide (maxOps = 0) || decide (o.c < maxOps)) then
        killerLoop maxOps o.t o.c rest
      else .normalStop

/-- Actions the killer performs after leaving its loop, in order
(stress-wait.c:117-121): `SIGKILL` to the runner, then `SIGALRM` to the
parent, then `exit`. -/
inductive KAct where
  | sigkillRunner
  | sigalrmParent
deriving DecidableEq, Repr

/-- The whole killer process body: run the probing loop from its entry
state (`start = time_now()`, `last = *counter`, stress-wait.c:89-90) and,
whenever the loop actually exits, kill the runner and wake the parent. -/
def killer (maxOps : Nat) (t0 : ℤ) (c0 : Nat) (obs : List KObs) :
    KExit × List KAct :=
  match killerLoop maxOps t0 c0 obs with
  | .pending s l => (.pending s l, [])
  | e => (e, [.sigkillRunner, .sigalrmParent])

/-- The watchdog window hypothesis between a watchdog state and every
later observation: the counter is nondecreasing and advances whenever
more than `ABORT_TIMEOUT` elapses. -/
def WinBetween (start : ℤ) (last : Nat) (obs : List KObs) : Prop :=
  ∀ o ∈ obs, last ≤ o.c ∧ (o.t - start > ABORT_TIMEOUT → last < o.c)

/-- The same window condition between two observations. -/
def WinPair (a b : KObs) : Prop :=
  a.c ≤ b.c ∧ (b.t - a.t > ABORT_TIMEOUT → a.c < b.c)

instance : DecidablePred fun p : KObs × KObs => WinPair p.1 p.2 := by
  intro p; unfold WinPair; infer_instance

instance (a b : KObs) : Decidable (WinPair a b) := by
  unfold WinPair; infer_instance

instance (start : ℤ) (last : Nat) (obs : List KObs) :
    Decidable (WinBetween start last obs) := by
  unfold WinBetween; infer_instance

/-! ## Parent monitoring iteration of stress_wait (stress-wait.c:149-185)

The guard macros are spelled `WCONINUED` / `WIFCONINUED` in the source;
neither is defined by any header (the POSIX names are `WCONTINUED` /
`WIFCONTINUED`), so the preprocessor always selects the `#else` branches:
`waitpid(pid_r, &status, 0)` followed by an unconditional `inc_counter`,
and — when the feature-test chain enables the richer `waitid` block —
`waitid(P_PID, pid_r, &info, 0)` followed by another unconditional
`inc_counter`.  `inc_counter(args)` increments the worker's shared
progress counter by one (declared in stress-ng.h, not under src/;
modelled from the spec: "increments its own progress counter").

For comparison, the text under the misspelled guards — what would compile
were the macros defined — conditions each increment on
`WIFCONTINUED(status)`, i.e. on the *waitpid* status word both times
(stress-wait.c:158, 178); it never inspects the `siginfo_t info`
structure filled by `waitid`. -/

/-- Observations of one Monitoring iteration: `opt_do_run` after each of
the two blocking queries, whether `WIFCONTINUED(status)` holds for the
`waitpid` status, and whether the richer `waitid` query independently
reported a continuation in its `siginfo_t`. -/
structure WaitIterObs where
  runAfterWaitpid : Bool
  statusContinued : Bool
  runAfterWaitid : Bool
  infoContinued : Bool
deriving DecidableEq, Repr

/-- One Monitoring iteration as actually compiled (guard macros
undefined): both `inc_counter` calls are unconditional. -/
def monitorIterCompiled (counter : Nat) (o : WaitIterObs) : Nat :=
  if o.runAfterWaitpid = false then counter
  else
    let c1 := counter + 1
    if o.runAfterWaitid = false then c1
    else c1 + 1

/-- One Monitoring iteration as the guarded text reads (if the guard
macros were defined): each increment is conditioned on
`WIFCONTINUED(status)` — the `waitpid` status, not the `waitid` info
(stress-wait.c:178 tests `status`). -/
def monitorIterGuarded (counter : Nat) (o : WaitIterObs) : Nat :=
  if o.runAfterWaitpid = false then counter
  else
    let c1 := if o.statusContinued then counter + 1 else counter
    if o.runAfterWaitid = false then c1
    else if o.statusContinued then c1 + 1 else c1

/-! ## Generic worker loop, /dev/null write stressor (stress-null.c:31-61)

One loop-body execution observes the `write` return value `ret` and
`errno`.  `EAGAIN`/`EINTR` carry their Linux values; only their
distinctness from each other and from 0 matters. -/

/-- `EAGAIN`. -/
def EAGAIN : Nat := 11

/-- `EINTR`. -/
def EINTR : Nat := 4

/-- Outcome of one execution of the stress_null loop body: the counter
afterwards, whether this path closed the file descriptor, and
`some code` when the body returned from the worker with exit status
`code` (`none` = the loop continues). -/
structure NullStepOut where
  counter : Nat
  fdClosed : Bool
  returned : Option Nat
deriving DecidableEq, Repr

/-- One execution of the stress_null loop body (stress-null.c:42-57):
`ret = write(fd, buffer, 4096)`; on `ret <= 0` with `EAGAIN`/`EINTR`
retry without counting; on `ret <= 0` with any other nonzero `errno`
close the descriptor and return `EXIT_FAILURE`; on `ret <= 0` with
`errno == 0` retry; otherwise `inc_counter`. -/
def nullStep (c : Nat) (ret : Int) (errno : Nat) : NullStepOut :=
  if ret ≤ 0 then
    if errno = EAGAIN ∨ errno = EINTR then ⟨c, false, none⟩
    else if errno ≠ 0 then ⟨c, true, some EXIT_FAILURE⟩
    else ⟨c, false, none⟩
  else ⟨c + 1, false, none⟩

/-! ## HDD-stressor cleanup conditions (stress-ng.c:365-366, 377-379)

`opt_flags` is an `int32_t` bitmask with `OPT_FLAGS_NO_CLEAN = 0x1`.
The pre-write check (line 365) is `!(opt_flags & OPT_FLAGS_NO_CLEAN)`;
the post-close check (line 378) is `(!opt_flags & OPT_FLAGS_NO_CLEAN)`,
where C's `!x` yields 1 when `x == 0` and 0 otherwise, and a nonzero
result is truthy. -/

/-- `OPT_FLAGS_NO_CLEAN` (stress-ng.c:48). -/
def OPT_FLAGS_NO_CLEAN : Nat := 1

/-- C logical negation on an integer value. -/
def cNot (x : Nat) : Nat := if x = 0 then 1 else 0

/-- The pre-write unlink condition (stress-ng.c:365):
`!(opt_flags & OPT_FLAGS_NO_CLEAN)`. -/
def preWriteClean (optFlags : Nat) : Bool :=
  cNot (Nat.land optFlags OPT_FLAGS_NO_CLEAN) ≠ 0

/-- The post-close unlink condition (stress-ng.c:378):
`(!opt_flags & OPT_FLAGS_NO_CLEAN)`. -/
def postCloseClean (optFlags : Nat) : Bool :=
  Nat.land (cNot optFlags) OPT_FLAGS_NO_CLEAN ≠ 0

/-- `opt_flags` at program start (stress-ng.c:122): `PR_ERR | PR_INF`. -/
def defaultOptFlags : Nat := 0x00010000 + 0x00020000

/-! ## Helper lemmas -/

/-- A `flatMap` whose function always yields a singleton is a `map`. -/
theorem flatMap_singleton_map {α β : Type} (g : α → β) :
    ∀ (l : List α) (f : α → List β), (∀ a ∈ l, f a = [g a]) → l.flatMap f = l.map g := by
  intro l
  induction l with
  | nil => intro f _; rfl
  | cons a t ih =>
    intro f h
    have ha := h a (List.mem_cons_self a t)
    simp only [List.flatMap_cons, List.map_cons, ha, List.singleton_append]
    rw [ih f (fun b hb => h b (List.mem_cons_of_mem a hb))]

/-- When only the first category requests workers, every round spawns
exactly that category's next worker, so the schedule is
`[(0,0), (0,1), …]`. -/
theorem spawnSchedule_single (n : Nat) :
    spawnSchedule [n, 0, 0, 0] = (List.range n).map (fun r => (0, r)) := by
  have htot : totalProcs [n, 0, 0, 0] = n := by simp [totalProcs]
  unfold spawnSchedule
  rw [htot]
  apply flatMap_singleton_map
  intro r hr
  have hrn : r < n := List.mem_range.mp hr
  have : roundSpawns [n, 0, 0, 0] r = [0] := by
    simp [roundSpawns, STRESS_MAX, List.filter, hrn]
  rw [this]
  rfl

/-- In the single-category configuration, the round recorded for the
worker at global spawn position `g` is `g` itself. -/
theorem schedule_single_round_eq_index (n g i r : Nat)
    (hg : (spawnSchedule [n, 0, 0, 0]).get? g = some (i, r)) : r = g := by
  rw [spawnSchedule_single, List.get?_map] at hg
  cases hrg : (List.range n).get? g with
  | none => rw [hrg] at hg; simp at hg
  | some a =>
    have hlt : g < n := by
      by_contra hge
      have hnone : (List.range n).get? g = none :=
        List.get?_eq_none.mpr (by simpa using Nat.le_of_not_lt hge)
      rw [hnone] at hrg
      exact Option.noConfusion hrg
    have hag : a = g := by
      have := List.get?_range hlt
      rw [this] at hrg
      exact (Option.some.inj hrg).symm
    rw [hrg] at hg
    simp only [Option.map_some', Option.some.injEq, Prod.mk.injEq] at hg
    omega

/-- If the `j`-th fork call fails while later schedule entries remain,
the launch loop stops with exactly the workers spawned so far recorded,
signals exactly those workers, and takes the `exit(EXIT_SUCCESS)` path. -/
theorem launchFrom_fail (forkOk : Nat → Bool) :
    ∀ (l : List (Nat × Nat)) (j k : Nat) (acc : List (Nat × Nat)),
      j < l.length → (∀ m, m < j → forkOk (k + m) = true) → forkOk (k + j) = false →
      launchFrom forkOk l k acc =
        LaunchResult.forkFailed (acc.reverse ++ l.take j) (acc.reverse ++ l.take j)
          EXIT_SUCCESS := by
  intro l
  induction l with
  | nil => intro j k acc hj _ _; simp at hj
  | cons e rest ih =>
    intro j k acc hj hprev hfail
    cases j with
    | zero =>
      rw [Nat.add_zero] at hfail
      simp only [launchFrom, hfail, Bool.false_eq_true, if_false, List.take_zero,
        List.append_nil]
    | succ p =>
      have h0 : forkOk k = true := by
        have := hprev 0 (Nat.succ_pos p)
        simpa using this
      have hrec := ih p (k + 1) (e :: acc)
        (by simpa using Nat.lt_of_succ_lt_succ hj)
        (fun m hm => by
          have := hprev (m + 1) (Nat.succ_lt_succ hm)
          simpa [Nat.add_assoc, Nat.add_comm 1 m] using this)
        (by
          have : k + 1 + p = k + (p + 1) := by omega
          rw [this]; exact hfail)
      simp only [launchFrom, h0, if_true]
      rw [hrec]
      simp

/-- Watchdog soundness: from a state that records an actual earlier
sample, the killer loop never takes the `stalledAbort` break as long as
the counter advances within every `ABORT_TIMEOUT` window. -/
theorem killerLoop_no_stall (maxOps : Nat) :
    ∀ (obs : List KObs) (start : ℤ) (last : Nat),
      WinBetween start last obs → List.Pairwise WinPair obs →
      killerLoop maxOps start last obs ≠ KExit.stalledAbort := by
  intro obs
  induction obs with
  | nil => intro start last _ _ h; simp [killerLoop] at h
  | cons o rest ih =>
    intro start last hb hp
    have hprs := List.pairwise_cons.mp hp
    by_cases he : last = o.c
    · by_cases ht : o.t - start > ABORT_TIMEOUT
      · exfalso
        have := (hb o (List.mem_cons_self o rest)).2 ht
        omega
      · by_cases hc : o.run && (decide (maxOps = 0) || decide (o.c < maxOps))
        · simp only [killerLoop, if_pos he, if_neg ht, if_pos hc]
          exact ih start last (fun b hbm => hb b (List.mem_cons_of_mem o hbm)) hprs.2
        · simp only [killerLoop, if_pos he, if_neg ht, if_neg hc]
          intro h; exact KExit.noConfusion h
    · by_cases hc : o.run && (decide (maxOps = 0) || decide (o.c < maxOps))
      · simp only [killerLoop, if_neg he, if_pos hc]
        exact ih o.t o.c (fun b hbm => hprs.1 b hbm) hprs.2
      · simp only [killerLoop, if_neg he, if_neg hc]
        intro h; exact KExit.noConfusion h

/-- Watchdog liveness: with the counter frozen at its entry value and the
run flag up (unbounded budget), the loop takes the `stalledAbort` break
as soon as an iteration observes more than `ABORT_TIMEOUT` elapsed. -/
theorem killerLoop_stall (t0 : ℤ) (c0 : Nat) :
    ∀ obs : List KObs, (∀ o ∈ obs, o.c = c0 ∧ o.run = true) →
      (∃ o ∈ obs, o.t - t0 > ABORT_TIMEOUT) →
      killerLoop 0 t0 c0 obs = KExit.stalledAbort := by
  intro obs
  induction obs with
  | nil => intro _ hex; simp at hex
  | cons o rest ih =>
    intro hall hex
    have ho := hall o (List.mem_cons_self o rest)
    have he : c0 = o.c := ho.1.symm
    by_cases ht : o.t - t0 > ABORT_TIMEOUT
    · simp only [killerLoop, if_pos he, if_pos ht]
    · have hstep : killerLoop 0 t0 c0 (o :: rest) = killerLoop 0 t0 c0 rest := by
        simp only [killerLoop, if_pos he, if_neg ht, ho.2]
        simp
      rw [hstep]
      apply ih (fun b hb => hall b (List.mem_cons_of_mem o hb))
      rcases hex with ⟨w, hw, hwt⟩
      rcases List.mem_cons.mp hw with hweq | hwrest
      · exact absurd (hweq ▸ hwt) ht
      · exact ⟨w, hwrest, hwt⟩

/-- Whenever the probing loop actually exits (watchdog break or normal
stop), the killer SIGKILLs the runner and SIGALRMs the parent. -/
theorem killer_teardown (maxOps : Nat) (t0 : ℤ) (c0 : Nat) (obs : List KObs)
    (h : killerLoop maxOps t0 c0 obs = KExit.stalledAbort ∨
         killerLoop maxOps t0 c0 obs = KExit.normalStop) :
    (killer maxOps t0 c0 obs).2 = [KAct.sigkillRunner, KAct.sigalrmParent] := by
  unfold killer
  rcases h with h | h <;> rw [h]

/-! ## Claim theorems -/

/-- C1 counterexample: with one requested worker and an immediately
failing `fork`, the launch aborts via the shared `out:` path with
`exit(EXIT_SUCCESS)` — process exit code 0, not the failure exit code 1
the claim states. -/
theorem launch_forkfail_exits_success :
    launch [1, 0, 0, 0] (fun _ => false) =
      LaunchResult.forkFailed [] [] EXIT_SUCCESS ∧
    EXIT_SUCCESS ≠ EXIT_FAILURE := by decide

/-- C1 (amended): if the `j`-th fork call fails mid-launch, the
orchestrator has spawned exactly the first `j` scheduled workers, signals
(`SIGALRM`) exactly those previously spawned workers, attempts no further
spawns, and the run aborts with exit code 0 (`EXIT_SUCCESS`) — not 1. -/
theorem launch_forkfail_spec (np : List Nat) (forkOk : Nat → Bool) (j : Nat)
    (hj : j < (spawnSchedule np).length)
    (hprev : ∀ m, m < j → forkOk m = true) (hfail : forkOk j = false) :
    launch np forkOk =
      LaunchResult.forkFailed ((spawnSchedule np).take j)
        ((spawnSchedule np).take j) EXIT_SUCCESS := by
  have h := launchFrom_fail forkOk (spawnSchedule np) j 0 []
    hj (fun m hm => by simpa using hprev m hm) (by simpa using hfail)
  simpa [launch] using h

/-- Witness for C1's amended theorem: the second fork fails after one
worker was spawned. -/
theorem launch_forkfail_spec_witness :
    launch [1, 1, 0, 0] (fun n => n == 0) =
      LaunchResult.forkFailed [(0, 0)] [(0, 0)] EXIT_SUCCESS := by
  have h := launch_forkfail_spec [1, 1, 0, 0] (fun n => n == 0) 1
    (by decide) (by decide) (by decide)
  rw [h]
  decide

/-- C2: false on the code — the slot formula `(j * max) + i` both
collides across distinct spawned workers (2 iosync + 1 vm workers gives
`max = 2`; iosync worker `j = 1` and vm worker `j = 0` share slot 2) and
escapes the shared region (5 cpu workers gives `max = 5`; cpu worker
`j = 4` is handed slot 21 of a 20-counter region). -/
theorem counterSlot_collision_and_overflow :
    ((2, 0) ∈ spawnSchedule [2, 0, 1, 0] ∧ (0, 1) ∈ spawnSchedule [2, 0, 1, 0] ∧
      ((2, 0) : Nat × Nat) ≠ (0, 1) ∧
      counterSlot (maxProcs [2, 0, 1, 0]) 2 0 = counterSlot (maxProcs [2, 0, 1, 0]) 0 1) ∧
    ((1, 4) ∈ spawnSchedule [0, 5, 0, 0] ∧
      regionCounters (maxProcs [0, 5, 0, 0]) ≤ counterSlot (maxProcs [0, 5, 0, 0]) 1 4) := by
  decide

/-- C3: the per-worker operation budget is the total budget divided by
the requested worker count using truncating integer division (10 ÷ 3
gives 3), and a zero worker count yields budget zero with no division
attempted. -/
theorem div_ops_by_procs_spec :
    (∀ opt nproc : Nat, nproc ≠ 0 → DIV_OPS_BY_PROCS opt nproc = opt / nproc) ∧
    (∀ opt : Nat, DIV_OPS_BY_PROCS opt 0 = 0) ∧
    DIV_OPS_BY_PROCS 10 3 = 3 := by
  refine ⟨fun opt nproc h => ?_, fun opt => rfl, rfl⟩
  simp [DIV_OPS_BY_PROCS, h]

/-- Witness for C3 at a concrete input. -/
theorem div_ops_by_procs_spec_witness : DIV_OPS_BY_PROCS 10 3 = 10 / 3 :=
  div_ops_by_procs_spec.1 10 3 (by decide)

/-- C4 counterexample: with one outstanding worker, a failing `wait()`
makes the loop signal all tracked workers and print the `Break`
diagnostic, then CONTINUE: the next iteration reaps pid 7 normally and
the loop completes (outstanding count 0); the run is not terminated at
the failure. -/
theorem reap_continues_after_wait_failure :
    reapLoop 1 [WaitRes.failed, WaitRes.reaped 7] =
      (0, [ReapEvent.alarmAllBreak, ReapEvent.procFinished 7]) := by decide

/-- C4 (amended): whenever the blocking wait fails, the orchestrator
force-signals all tracked workers and reports the interruption, but then
continues the reap loop with the outstanding count unchanged rather than
terminating the run (which ends only when the count reaches zero). -/
theorem reap_wait_failure_spec (n : Nat) (rest : List WaitRes) (h : 0 < n) :
    reapLoop n (WaitRes.failed :: rest) =
      ((reapLoop n rest).1, ReapEvent.alarmAllBreak :: (reapLoop n rest).2) := by
  cases n with
  | zero => omega
  | succ m => rfl

/-- Witness for C4's amended theorem. -/
theorem reap_wait_failure_spec_witness :
    reapLoop 1 [WaitRes.failed] =
      ((reapLoop 1 []).1, ReapEvent.alarmAllBreak :: (reapLoop 1 []).2) :=
  reap_wait_failure_spec 1 [] (by decide)

/-- C5 counterexample: immediately after the `mmap` call the
shared-memory name IS present in the namespace — the only pre-mapping
`shm_unlink` runs before `shm_open` creates the name — whatever the
initial namespace state. -/
theorem shm_name_present_after_mmap :
    shmNameExists false shmOpsThroughMmap = true ∧
    shmNameExists true shmOpsThroughMmap = true := by decide

/-- C5 (amended): the name is unlinked immediately BEFORE the object is
created (clearing any stale name from a previous crash) and again at
exit; from creation until the exit-time unlink the name exists in the
namespace; the exit-time removal removes it and is idempotent (a second
removal attempt is a harmless no-op). -/
theorem shm_name_lifecycle :
    shmNameExists true [ShmOp.unlinkName] = false ∧
    shmNameExists false shmSetupOps = true ∧
    shmNameExists true shmSetupOps = true ∧
    shmNameExists false (shmSetupOps ++ [ShmOp.unlinkName]) = false ∧
    shmNameExists false (shmSetupOps ++ [ShmOp.unlinkName, ShmOp.unlinkName]) =
      shmNameExists false (shmSetupOps ++ [ShmOp.unlinkName]) := by decide

/-- C6 counterexample: with one iosync and one cpu worker, the worker at
global spawn sequence index 1 is forked in round 0 and sleeps
`backoff * 0 = 0` microseconds rather than `backoff * 1` (backoff 1). -/
theorem backoff_uses_round_not_seq_index :
    (spawnSchedule [1, 1, 0, 0]).get? 1 = some (1, 0) ∧
    childSleep 1 0 ≠ 1 * 1 := by decide

/-- C6 (amended): every spawned worker sleeps `backoff * r` before
running its stressor, where `r` is its spawn ROUND (the outer-loop
counter `n_procs`, shared by every worker forked in the same round), and
its recorded launch timestamp is at least orchestrator start time plus
`backoff * r`; when only one category requests workers the round equals
the global spawn sequence index, recovering the claim as stated. -/
theorem launch_stagger_spec :
    (∀ (np : List Nat) (B startT forkT g i r : Nat),
        (spawnSchedule np).get? g = some (i, r) → startT ≤ forkT →
        childSleep B r = B * r ∧ startT + B * r ≤ recordedStart forkT B r) ∧
    (∀ n g i r : Nat,
        (spawnSchedule [n, 0, 0, 0]).get? g = some (i, r) → r = g) := by
  constructor
  · intro np B startT forkT g i r _ hle
    exact ⟨rfl, Nat.add_le_add_right hle _⟩
  · exact schedule_single_round_eq_index

/-- Witness for C6's amended theorem at concrete inputs. -/
theorem launch_stagger_spec_witness :
    (childSleep 3 1 = 3 * 1 ∧ 100 + 3 * 1 ≤ recordedStart 105 3 1) ∧
    (1 : Nat) = 1 :=
  ⟨launch_stagger_spec.1 [2, 0, 0, 0] 3 100 105 1 0 1 (by decide) (by decide),
   launch_stagger_spec.2 2 1 0 1 (by decide)⟩

/-- C7: (i) if, between the killer's watchdog state and every later
iteration's observation and between any two observations, the progress
counter is nondecreasing and advances whenever more than `ABORT_TIMEOUT`
(8 s) elapses, the killer never exits through `stalledAbort`; (ii) if the
counter stays frozen at its entry value while the run flag is up
(unbounded budget) and some iteration observes more than `ABORT_TIMEOUT`
elapsed, the killer exits through `stalledAbort`; (iii) on leaving the
probing loop for any reason it SIGKILLs the runner and SIGALRMs the
parent before exiting. -/
theorem triad_killer_watchdog :
    (∀ (maxOps : Nat) (start : ℤ) (last : Nat) (obs : List KObs),
        WinBetween start last obs → List.Pairwise WinPair obs →
        killerLoop maxOps start last obs ≠ KExit.stalledAbort) ∧
    (∀ (t0 : ℤ) (c0 : Nat) (obs : List KObs),
        (∀ o ∈ obs, o.c = c0 ∧ o.run = true) →
        (∃ o ∈ obs, o.t - t0 > ABORT_TIMEOUT) →
        killerLoop 0 t0 c0 obs = KExit.stalledAbort) ∧
    (∀ (maxOps : Nat) (t0 : ℤ) (c0 : Nat) (obs : List KObs),
        killerLoop maxOps t0 c0 obs = KExit.stalledAbort ∨
        killerLoop maxOps t0 c0 obs = KExit.normalStop →
        (killer maxOps t0 c0 obs).2 = [KAct.sigkillRunner, KAct.sigalrmParent]) :=
  ⟨fun maxOps start last obs hb hp => killerLoop_no_stall maxOps obs start last hb hp,
   fun t0 c0 obs hall hex => killerLoop_stall t0 c0 obs hall hex,
   killer_teardown⟩

/-- Witness for C7 at concrete observation traces (times in
microseconds): a counter advancing at 5 s does not stall; a counter
frozen through a 9 s observation stalls, and the killer then kills the
runner and wakes the parent. -/
theorem triad_killer_watchdog_witness :
    killerLoop 0 0 0 [⟨5000000, 1, true⟩] ≠ KExit.stalledAbort ∧
    killerLoop 0 0 0 [⟨9000000, 0, true⟩] = KExit.stalledAbort ∧
    (killer 0 0 0 [⟨9000000, 0, true⟩]).2 =
      [KAct.sigkillRunner, KAct.sigalrmParent] :=
  ⟨triad_killer_watchdog.1 0 0 0 [⟨5000000, 1, true⟩] (by decide) (by decide),
   triad_killer_watchdog.2.1 0 0 [⟨9000000, 0, true⟩] (by decide) (by decide),
   triad_killer_watchdog.2.2 0 0 0 [⟨9000000, 0, true⟩]
     (Or.inl (triad_killer_watchdog.2.1 0 0 [⟨9000000, 0, true⟩]
       (by decide) (by decide)))⟩

/-- C8: false on the code — in a Monitoring iteration where the richer
`waitid` query reports NO continuation the counter still advances twice:
the misspelled guard macros (`WCONINUED`/`WIFCONINUED`) make both
`inc_counter` calls compile unconditionally, and even the guarded text
conditions the second increment on the `waitpid` status word, never on
the `waitid` result. -/
theorem monitor_double_count_unconditional :
    monitorIterCompiled 0 ⟨true, true, true, false⟩ = 2 ∧
    monitorIterGuarded 0 ⟨true, true, true, false⟩ = 2 := by decide

/-- C9: in the /dev/null worker loop, an interrupted or would-block step
is retried without advancing the counter, closing the descriptor, or
exiting; any other failing step (a failed `write` sets a nonzero
`errno`) closes the descriptor on that exit path and returns failure
status; a successful step advances the counter by exactly one. -/
theorem stress_null_step_spec :
    (∀ (c : Nat) (ret : Int) (errno : Nat),
        ret ≤ 0 → errno = EAGAIN ∨ errno = EINTR →
        nullStep c ret errno = ⟨c, false, none⟩) ∧
    (∀ (c : Nat) (ret : Int) (errno : Nat),
        ret ≤ 0 → errno ≠ 0 → errno ≠ EAGAIN → errno ≠ EINTR →
        nullStep c ret errno = ⟨c, true, some EXIT_FAILURE⟩) ∧
    (∀ (c : Nat) (ret : Int) (errno : Nat),
        0 < ret → nullStep c ret errno = ⟨c + 1, false, none⟩) := by
  refine ⟨?_, ?_, ?_⟩
  · intro c ret errno hr he
    simp [nullStep, hr, he]
  · intro c ret errno hr h0 ha hi
    simp [nullStep, hr, h0, ha, hi]
  · intro c ret errno hr
    rw [nullStep, if_neg (by omega)]

/-- Witness for C9: a retried `EINTR` write, a hard `EIO`-style failure
(errno 5), and a successful 4096-byte write. -/
theorem stress_null_step_spec_witness :
    nullStep 5 (-1) EINTR = ⟨5, false, none⟩ ∧
    nullStep 5 (-1) 5 = ⟨5, true, some EXIT_FAILURE⟩ ∧
    nullStep 5 4096 0 = ⟨6, false, none⟩ :=
  ⟨stress_null_step_spec.1 5 (-1) EINTR (by decide) (Or.inr rfl),
   stress_null_step_spec.2.1 5 (-1) 5 (by decide) (by decide) (by decide) (by decide),
   stress_null_step_spec.2.2 5 4096 0 (by decide)⟩

/-- C10: false on the code — with the program's default flag word
(`PR_ERR | PR_INF`, skip-cleanup bit clear) the pre-write check unlinks
but the post-close check `(!opt_flags & OPT_FLAGS_NO_CLEAN)` does not:
it tests whether the whole flag word is zero rather than testing the
skip-cleanup bit alone, so it does not match the pre-write check. -/
theorem hdd_clean_condition_mismatch :
    Nat.land defaultOptFlags OPT_FLAGS_NO_CLEAN = 0 ∧
    preWriteClean defaultOptFlags = true ∧
    postCloseClean defaultOptFlags = false := by decide

end StressNg
